import Mathlib

/-!
Shallow embedding of `src/lobo_wireless/lobo_wireless.py` (class `Wireless`
and the module-level function `status_message`).

The external MicroPython radio driver (`network.WLAN`) is modelled by the
structure `Driver`: a deterministic oracle giving the result of the k-th
`isconnected()` call, whether `connect()` raises `OSError` (and with which
message), the result of the k-th `status()` call, the assigned address
returned by `ifconfig()[0]`, the scan results, and the name/value pairs of
`dir(network)` used by `status_message`.

Every driver call and every `time.sleep` is recorded as an `Event` in an
explicit machine state `MState`, which also carries the radio power state
and the `_output` log list that the Python methods build.  Python code that
raises is embedded with `Except`; code that catches an exception matches on
the `Except` value.
-/

/-- One observable effect: a driver call or a sleep, in program order. -/
inductive Event where
  | activeQuery (res : Bool)
  | setActive (b : Bool)
  | sleepCall (secs : Nat)
  | isconnectedCall (res : Bool)
  | connectCall
  | scanCall
  | statusCall (code : Int)
  | ifconfigCall
  | disconnectCall
deriving Repr, DecidableEq

/-- One element of `wlan.scan()`: (ssid, bssid, channel, RSSI, security, hidden). -/
structure ScanEntry where
  id : List Nat
  bssid : List Nat
  channel : Int
  rssi : Int
  security : Int
  hidden : Bool
deriving Repr, DecidableEq

/-- Deterministic model of the external `network.WLAN` driver plus the
`network` module constants. `isconnectedAt k` is the result of the k-th
`isconnected()` call; `connectFault = some msg` means `wlan.connect`
raises `OSError` whose `args[0]` is `msg`; `statusAt k` is the result of
the k-th `status()` call; `stats` is `dir(network)` as name/value pairs. -/
structure Driver where
  isconnectedAt : Nat → Bool
  connectFault : Option String
  statusAt : Nat → Int
  address : String
  scanResults : List ScanEntry
  stats : List (String × Int)

/-- The configuration fields stored on the `Wireless` object. -/
structure Config where
  ssid : String
  password : String
  attempts : Int
  wait_loops : Int
deriving Repr, DecidableEq

/-- Machine state threaded through the embedded methods: counters indexing
the driver oracle, the radio power state, the event trace, and the
`_output` message list being built. -/
structure MState where
  icCount : Nat
  stCount : Nat
  power : Bool
  events : List Event
  output : List String
deriving Repr, DecidableEq

def initState (power : Bool) : MState :=
  { icCount := 0, stCount := 0, power := power, events := [], output := [] }

def recordEvent (s : MState) (e : Event) : MState :=
  { s with events := s.events ++ [e] }

def appendOut (s : MState) (line : String) : MState :=
  { s with output := s.output ++ [line] }

/-- `time.sleep(secs)`. -/
def sleepE (secs : Nat) (s : MState) : MState :=
  recordEvent s (.sleepCall secs)

/-- `self.wlan.active(b)`. -/
def setActiveE (b : Bool) (s : MState) : MState :=
  { recordEvent s (.setActive b) with power := b }

/-- `self.wlan.isconnected()`: k-th call returns `d.isconnectedAt k`. -/
def wlan_isconnected (d : Driver) (s : MState) : Bool × MState :=
  let r := d.isconnectedAt s.icCount
  (r, { recordEvent s (.isconnectedCall r) with icCount := s.icCount + 1 })

/-- `self.wlan.status()`: k-th call returns `d.statusAt k`. -/
def wlan_status (d : Driver) (s : MState) : Int × MState :=
  let c := d.statusAt s.stCount
  (c, { recordEvent s (.statusCall c) with stCount := s.stCount + 1 })

/-- `self.wlan.ifconfig()[0]`. -/
def wlan_ifconfig0 (d : Driver) (s : MState) : String × MState :=
  (d.address, recordEvent s .ifconfigCall)

/-- `self.wlan.connect(ssid, password)`: raises `OSError(msg)` when the
driver rejects the request synchronously (`d.connectFault = some msg`). -/
def wlan_connect (d : Driver) (_ssid _password : String) (s : MState) :
    Except (String × MState) MState :=
  let s1 := recordEvent s .connectCall
  match d.connectFault with
  | some msg => .error (msg, s1)
  | none => .ok s1

/-! ### status_message (module-level function) -/

/-- Python substring test `needle in hay` on character lists. -/
def hasSubstr (needle : List Char) : List Char → Bool
  | [] => needle == []
  | c :: t => needle.isPrefixOf (c :: t) || hasSubstr needle t

/-- The list comprehension filter `"STAT_" in s` over `dir(network)`. -/
def hasSTAT (s : String) : Bool :=
  hasSubstr "STAT_".toList s.toList

/-- Python dict assignment `m[k] = v` on a dictionary modelled as a finite
partial mapping: the written key shadows whatever was stored before. -/
def dictInsert (m : Int → Option String) (k : Int) (v : String) : Int → Option String :=
  fun q => if q = k then some v else m q

/-- `status_message(status)`, parameterised by `dir(network)` as name/value
pairs: builds the dictionary from all names containing "STAT_", mapping
each value to the name with its first 5 characters removed, then looks up
`status` with the synthetic default "ERROR \x7bstatus\x7d?" via `.get`. -/
def status_message (networkDir : List (String × Int)) (status : Int) : String :=
  let _stats := networkDir.filter (fun p => hasSTAT p.1)
  let _out := _stats.foldl (fun m p => dictInsert m p.2 (p.1.drop 5)) (fun _ => none)
  (_out status).getD ("ERROR " ++ toString status ++ "?")

/-- The codes of the driver-exposed status constants (the keys of the
dictionary that `status_message` builds). -/
def knownCodes (networkDir : List (String × Int)) : List Int :=
  (networkDir.filter (fun p => hasSTAT p.1)).map (fun p => p.2)

/-! ### Configuration setters and the password getter -/

/-- The `ssid` setter: `assert 2 <= len(ssid) <= 32` before assigning. -/
def ssid_set (cfg : Config) (ssid : String) : Except String Config :=
  if 2 ≤ ssid.length ∧ ssid.length ≤ 32 then .ok { cfg with ssid := ssid }
  else .error "ssid must be 2 <= str <=32"

/-- The `password` setter: only a type assert, always succeeds on a string. -/
def password_set (cfg : Config) (password : String) : Except String Config :=
  .ok { cfg with password := password }

/-- The `attempts` setter: `assert 1 <= attempts <= 9` before assigning. -/
def attempts_set (cfg : Config) (attempts : Int) : Except String Config :=
  if 1 ≤ attempts ∧ attempts ≤ 9 then .ok { cfg with attempts := attempts }
  else .error "attempts must be 1 <= int <= 9"

/-- The `wait_loops` setter: `assert 1 <= wait_loops <= 9` before assigning. -/
def wait_loops_set (cfg : Config) (wait_loops : Int) : Except String Config :=
  if 1 ≤ wait_loops ∧ wait_loops ≤ 9 then .ok { cfg with wait_loops := wait_loops }
  else .error "wait_loops must be 1 <= int <= 9"

/-- The `password` property getter: the source body is `return None`. -/
def password_get (_cfg : Config) : Option String :=
  none

/-! ### available_wlans -/

/-- `available_wlans()`: read the power state; if down, power up and sleep 1;
scan; if it was down, power back down; return the scan results. -/
def available_wlans (d : Driver) (s : MState) : List ScanEntry × MState :=
  let _wa := s.power
  let s1 := recordEvent s (.activeQuery _wa)
  let s2 := if _wa then s1 else sleepE 1 (setActiveE true s1)
  let s3 := recordEvent s2 .scanCall
  let s4 := if _wa then s3 else setActiveE false s3
  (d.scanResults, s4)

/-! ### connect -/

def ATTEMPT_SLEEP : Nat := 15

def WAIT_SLEEP : Nat := 7

/-- Python `range(n, 0, -1)`: the list n, n-1, ..., 1 (empty when n <= 0). -/
def rangeDown (n : Int) : List Int :=
  (List.range n.toNat).map (fun (i : Nat) => n - (i : Int))

/-- The inner loop `for _l in (wait_loops, 0, -1)` of `connect`, iterating
over an explicit list of values (a Python tuple, not a range).  Returns
whether the function returned early (connected) and the new state. -/
def waitLoop (d : Driver) : List Int → MState → Bool × MState
  | [], s => (false, s)
  | l :: rest, s =>
    let (c, s1) := wlan_isconnected d s
    if c then
      let (ip, s2) := wlan_ifconfig0 d s1
      (true, appendOut s2 (" " ++ ip))
    else
      let s2 :=
        if 1 < l then sleepE WAIT_SLEEP (appendOut s1 (" Wait " ++ toString l)) else s1
      waitLoop d rest s2

/-- The outer loop `for _a in range(attempts, 0, -1)` of `connect`.  Returns
whether the function returned early (connected or driver fault) and the
new state. -/
def attemptLoop (d : Driver) (cfg : Config) : List Int → MState → Bool × MState
  | [], s => (false, s)
  | a :: rest, s =>
    let s1 := appendOut s ("WLAN " ++ toString a)
    match wlan_connect d cfg.ssid cfg.password s1 with
    | .error (msg, s2) =>
      (true, appendOut s2 (msg ++ ". Probably wrong network password"))
    | .ok s2 =>
      let s3 := sleepE 1 s2
      match waitLoop d [cfg.wait_loops, 0, -1] s3 with
      | (true, s4) => (true, s4)
      | (false, s4) =>
        let (code, s5) := wlan_status d s4
        let s6 := appendOut s5 (status_message d.stats code)
        let s7 := if 1 < a then sleepE ATTEMPT_SLEEP s6 else s6
        attemptLoop d cfg rest s7

/-- `connect()`: early return of the address when already connected,
otherwise power up, sleep 1, run the attempt loop, and append
"WLAN connection failed" when the loop falls through. -/
def connect (d : Driver) (cfg : Config) (s : MState) : MState :=
  let (c0, s1) := wlan_isconnected d s
  if c0 then
    let (ip, s2) := wlan_ifconfig0 d s1
    appendOut s2 ip
  else
    let s2 := sleepE 1 (setActiveE true s1)
    match attemptLoop d cfg (rangeDown cfg.attempts) s2 with
    | (true, s3) => s3
    | (false, s3) => appendOut s3 "WLAN connection failed"

/-! ### Event and log counting helpers -/

def countIC (es : List Event) : Nat :=
  (es.filter fun e => match e with | .isconnectedCall _ => true | _ => false).length

def countSleep (n : Nat) (es : List Event) : Nat :=
  (es.filter fun e => match e with | .sleepCall m => m == n | _ => false).length

def countSetActive (es : List Event) : Nat :=
  (es.filter fun e => match e with | .setActive _ => true | _ => false).length

def countConnectCalls (es : List Event) : Nat :=
  (es.filter fun e => match e with | .connectCall => true | _ => false).length

def countWaitEntries (out : List String) : Nat :=
  (out.filter (fun e => " Wait ".toList.isPrefixOf e.toList)).length

/-- An attempt-countdown log entry: "WLAN n" for n in 1..9. -/
def isCountdownEntry (e : String) : Bool :=
  (List.range 9).any (fun n => e == "WLAN " ++ toString ((n : Int) + 1))

/-! ### Concrete driver stubs used in closed evaluations -/

/-- A driver stub that never reports connected and never faults. -/
def stubNever : Driver :=
  { isconnectedAt := fun _ => false
    connectFault := none
    statusAt := fun _ => 0
    address := "10.0.0.5"
    scanResults := []
    stats := [] }

/-- A driver stub whose connect request raises `OSError("network password")`. -/
def stubFault : Driver :=
  { isconnectedAt := fun _ => false
    connectFault := some "network password"
    statusAt := fun _ => 0
    address := ""
    scanResults := []
    stats := [] }

/-- A driver stub already connected with address "10.0.0.5". -/
def stubConnected : Driver :=
  { isconnectedAt := fun _ => true
    connectFault := none
    statusAt := fun _ => 0
    address := "10.0.0.5"
    scanResults := []
    stats := [] }

/-- The caller-visible configuration after a setter call: the new object on
success, the unchanged old object when the assert raised. -/
def applySetter (cfg : Config) (r : Except String Config) : Config :=
  match r with
  | .ok c => c
  | .error _ => cfg

/-! ### Helper lemmas about the status dictionary fold -/

lemma fold_dictInsert_not_mem (l : List (String × Int)) (status : Int)
    (init : Int → Option String) (h : status ∉ l.map (fun p => p.2)) :
    (l.foldl (fun m p => dictInsert m p.2 (p.1.drop 5)) init) status = init status := by
  induction l generalizing init with
  | nil => rfl
  | cons p t ih =>
    simp only [List.map_cons, List.mem_cons, not_or] at h
    simp only [List.foldl_cons]
    rw [ih _ h.2]
    simp [dictInsert, h.1]

lemma fold_dictInsert_mem (l : List (String × Int)) (name : String) (status : Int)
    (init : Int → Option String) (hmem : (name, status) ∈ l)
    (hnd : (l.map (fun p => p.2)).Nodup) :
    (l.foldl (fun m p => dictInsert m p.2 (p.1.drop 5)) init) status
      = some (name.drop 5) := by
  induction l generalizing init with
  | nil => simp at hmem
  | cons p t ih =>
    simp only [List.map_cons, List.nodup_cons] at hnd
    rcases List.mem_cons.mp hmem with heq | htail
    · subst heq
      simp only [List.foldl_cons]
      rw [fold_dictInsert_not_mem t status _ hnd.1]
      simp [dictInsert]
    · exact ih _ htail hnd.2

lemma rangeDown_cons (n : Int) (h : 1 ≤ n) : rangeDown n = n :: rangeDown (n - 1) := by
  have hk : n.toNat = (n - 1).toNat + 1 := by omega
  unfold rangeDown
  rw [hk, List.range_succ_eq_map, List.map_cons, List.map_map]
  have h0 : n - ((0 : Nat) : Int) = n := by norm_num
  rw [h0]
  congr 1
  refine List.map_congr_left (fun a _ => ?_)
  simp only [Function.comp_apply]
  push_cast
  ring

/-- The state that `connect` produces when the driver rejects the very
first connect request synchronously: one countdown entry, one fault entry,
and an immediate return. -/
lemma connect_fault_state (d : Driver) (cfg : Config) (p : Bool) (msg : String)
    (hf : d.connectFault = some msg) (h0 : d.isconnectedAt 0 = false)
    (ha : 1 ≤ cfg.attempts) :
    connect d cfg (initState p) =
      { icCount := 1, stCount := 0, power := true,
        events := [.isconnectedCall false, .setActive true, .sleepCall 1, .connectCall],
        output := ["WLAN " ++ toString cfg.attempts,
                   msg ++ ". Probably wrong network password"] } := by
  simp [connect, attemptLoop, wlan_connect, wlan_isconnected, initState, h0, hf,
    rangeDown_cons cfg.attempts ha, setActiveE, sleepE, recordEvent, appendOut]

/-! ### Claim theorems -/

/-- C7: for every integer status code, if the code is the value of one of
the known driver status constants (a `dir(network)` name containing
"STAT_"), `status_message` returns that constant name as stored in the
table (the name with its 5-character "STAT_" prefix removed); for every
code not in the known set it returns the synthetic string
"ERROR \x7bcode\x7d?".  The function is total, so it never raises. -/
theorem status_message_known_or_synthetic (networkDir : List (String × Int)) (status : Int) :
    (status ∉ knownCodes networkDir →
      status_message networkDir status = "ERROR " ++ toString status ++ "?")
    ∧ (∀ name, (name, status) ∈ networkDir → hasSTAT name = true →
        (knownCodes networkDir).Nodup →
        status_message networkDir status = name.drop 5) := by
  constructor
  · intro h
    have hfold := fold_dictInsert_not_mem (networkDir.filter (fun p => hasSTAT p.1)) status
      (fun _ => none) (by simpa [knownCodes] using h)
    show ((networkDir.filter (fun p => hasSTAT p.1)).foldl
        (fun m p => dictInsert m p.2 (p.1.drop 5)) (fun _ => none) status).getD
        ("ERROR " ++ toString status ++ "?")
      = "ERROR " ++ toString status ++ "?"
    rw [hfold]
    rfl
  · intro name hmem hstat hnd
    have hfold := fold_dictInsert_mem (networkDir.filter (fun p => hasSTAT p.1)) name status
      (fun _ => none) (by simp [List.mem_filter, hmem, hstat])
      (by simpa [knownCodes] using hnd)
    show ((networkDir.filter (fun p => hasSTAT p.1)).foldl
        (fun m p => dictInsert m p.2 (p.1.drop 5)) (fun _ => none) status).getD
        ("ERROR " ++ toString status ++ "?")
      = name.drop 5
    rw [hfold]
    rfl

theorem status_message_known_or_synthetic_witness :
    ((77 : Int) ∉ knownCodes [("STAT_IDLE", 0), ("STAT_GOT_IP", 3), ("WLAN", 5)]
      ∧ status_message [("STAT_IDLE", 0), ("STAT_GOT_IP", 3), ("WLAN", 5)] 77 = "ERROR 77?")
    ∧ status_message [("STAT_IDLE", 0), ("STAT_GOT_IP", 3), ("WLAN", 5)] 3 = "GOT_IP" := by
  refine ⟨⟨by decide, ?_⟩, ?_⟩
  · exact (status_message_known_or_synthetic _ 77).1 (by decide)
  · exact (status_message_known_or_synthetic _ 3).2 "STAT_GOT_IP" (by decide) (by decide)
      (by decide)

/-- C8: each out-of-bound value given to a configuration setter (ssid
length 0, 1 or 33; attempts 0 or 10; wait_loops 0 or 10) makes the setter
raise its assert message, and the caller-visible configuration stays the
previously stored one (the assert fires before any field assignment). -/
theorem setters_reject_out_of_bounds (cfg : Config) (s : String)
    (hs : s.length = 0 ∨ s.length = 1 ∨ s.length = 33) :
    (ssid_set cfg s = .error "ssid must be 2 <= str <=32"
      ∧ applySetter cfg (ssid_set cfg s) = cfg)
    ∧ (attempts_set cfg 0 = .error "attempts must be 1 <= int <= 9"
      ∧ applySetter cfg (attempts_set cfg 0) = cfg)
    ∧ (attempts_set cfg 10 = .error "attempts must be 1 <= int <= 9"
      ∧ applySetter cfg (attempts_set cfg 10) = cfg)
    ∧ (wait_loops_set cfg 0 = .error "wait_loops must be 1 <= int <= 9"
      ∧ applySetter cfg (wait_loops_set cfg 0) = cfg)
    ∧ (wait_loops_set cfg 10 = .error "wait_loops must be 1 <= int <= 9"
      ∧ applySetter cfg (wait_loops_set cfg 10) = cfg) := by
  have hss : ssid_set cfg s = .error "ssid must be 2 <= str <=32" := by
    unfold ssid_set
    rcases hs with h | h | h <;> rw [if_neg (by omega)]
  refine ⟨⟨hss, by rw [hss]; rfl⟩, ⟨?_, ?_⟩, ⟨?_, ?_⟩, ⟨?_, ?_⟩, ⟨?_, ?_⟩⟩ <;>
    simp [attempts_set, wait_loops_set, applySetter]

theorem setters_reject_out_of_bounds_witness :
    ("".length = 0 ∨ "".length = 1 ∨ "".length = 33)
    ∧ ssid_set { ssid := "ab", password := "p", attempts := 5, wait_loops := 5 } ""
        = .error "ssid must be 2 <= str <=32" := by
  refine ⟨Or.inl rfl, ?_⟩
  exact (setters_reject_out_of_bounds
    { ssid := "ab", password := "p", attempts := 5, wait_loops := 5 } "" (Or.inl rfl)).1.1

/-- C9: the password property getter returns the absent value for every
stored configuration (its source body is `return None`), hence its result
does not depend on which secret was stored. -/
theorem password_get_never_reveals (cfg cfg2 : Config) :
    password_get cfg = none ∧ password_get cfg = password_get cfg2 :=
  ⟨rfl, rfl⟩

/-- C10: `available_wlans` leaves the radio power state as the caller had
it.  When the radio is down on entry the full event suffix is exactly one
power-up and one power-down bracketing the scan (with the 1-unit settle
sleep); when it is already up, the only driver calls are the power query
and the scan, with no power-state change at all. -/
theorem available_wlans_restores_power (d : Driver) (s : MState) :
    (s.power = false →
      available_wlans d s =
        (d.scanResults,
          { s with
            events := s.events ++
              [.activeQuery false, .setActive true, .sleepCall 1, .scanCall,
                .setActive false],
            power := false }))
    ∧ (s.power = true →
      available_wlans d s =
        (d.scanResults,
          { s with events := s.events ++ [.activeQuery true, .scanCall] })) := by
  constructor <;> intro h <;>
    simp [available_wlans, recordEvent, setActiveE, sleepE, h]

theorem available_wlans_restores_power_witness :
    (initState false).power = false
    ∧ available_wlans stubNever (initState false) =
        ([],
          { initState false with
            events := [.activeQuery false, .setActive true, .sleepCall 1, .scanCall,
              .setActive false],
            power := false }) := by
  refine ⟨rfl, ?_⟩
  have h := (available_wlans_restores_power stubNever (initState false)).1 rfl
  simpa using h

/-- C3: when the driver rejects the connect request synchronously on the
first attempt, `connect` logs one fault entry (treated as probably wrong
password) and returns immediately: the log is exactly the first countdown
entry followed by the fault entry, so no later countdown entry and no
final "WLAN connection failed" entry appears, whatever `attempts` is. -/
theorem connect_fault_aborts_immediately (d : Driver) (cfg : Config) (p : Bool) (msg : String)
    (hf : d.connectFault = some msg) (h0 : d.isconnectedAt 0 = false)
    (ha : 1 ≤ cfg.attempts) (ha9 : cfg.attempts ≤ 9) :
    (connect d cfg (initState p)).output
      = ["WLAN " ++ toString cfg.attempts, msg ++ ". Probably wrong network password"]
    ∧ "WLAN connection failed" ∉ (connect d cfg (initState p)).output := by
  rw [connect_fault_state d cfg p msg hf h0 ha]
  refine ⟨rfl, ?_⟩
  intro hmem
  rcases List.mem_cons.mp hmem with h1 | h1
  · obtain ⟨s', pw', a', w'⟩ := cfg
    simp only at ha ha9 h1
    interval_cases a' <;> exact absurd h1 (by decide)
  · rcases List.mem_cons.mp h1 with h2 | h2
    · have hlen := congrArg String.length h2
      rw [String.length_append] at hlen
      have : (". Probably wrong network password").length = 33 := by decide
      have : ("WLAN connection failed").length = 22 := by decide
      omega
    · simp at h2

theorem connect_fault_aborts_immediately_witness :
    (stubFault.connectFault = some "network password"
      ∧ stubFault.isconnectedAt 0 = false
      ∧ 1 ≤ (3 : Int) ∧ (3 : Int) ≤ 9)
    ∧ (connect stubFault { ssid := "net", password := "pw", attempts := 3, wait_loops := 5 }
        (initState false)).output
      = ["WLAN 3", "network password. Probably wrong network password"] := by
  refine ⟨⟨rfl, rfl, by decide, by decide⟩, ?_⟩
  exact (connect_fault_aborts_immediately stubFault
    { ssid := "net", password := "pw", attempts := 3, wait_loops := 5 } false
    "network password" rfl rfl (by decide) (by decide)).1

/-- C4 counterexample: the source catches the OSError raised by the driver
(`except OSError as e`) and returns the log normally, so `connect` does not
raise to its caller: at this concrete faulting input it evaluates to an
ordinary result state whose log ends with the fault entry. -/
theorem connect_fault_no_raise_counterexample :
    connect stubFault { ssid := "KTLT9000", password := "pw", attempts := 5, wait_loops := 5 }
        (initState false)
      = { icCount := 1, stCount := 0, power := true,
          events := [.isconnectedCall false, .setActive true, .sleepCall 1, .connectCall],
          output := ["WLAN 5", "network password. Probably wrong network password"] } := by
  decide

/-- C4 amended: when the driver synchronously rejects the connect request,
`connect` catches the fault and returns the log normally (no error escapes:
its embedded result is an ordinary state, because the source wraps the
driver call in try/except); the fault is terminal for that call: exactly
one driver connect request is issued and the log ends with the fault
entry. -/
theorem connect_fault_caught_and_terminal (d : Driver) (cfg : Config) (p : Bool) (msg : String)
    (hf : d.connectFault = some msg) (h0 : d.isconnectedAt 0 = false)
    (ha : 1 ≤ cfg.attempts) :
    countConnectCalls (connect d cfg (initState p)).events = 1
    ∧ (connect d cfg (initState p)).output.getLast?
        = some (msg ++ ". Probably wrong network password") := by
  rw [connect_fault_state d cfg p msg hf h0 ha]
  exact ⟨rfl, rfl⟩

theorem connect_fault_caught_and_terminal_witness :
    (stubFault.connectFault = some "network password"
      ∧ stubFault.isconnectedAt 0 = false ∧ 1 ≤ (5 : Int))
    ∧ countConnectCalls
        (connect stubFault { ssid := "net", password := "pw", attempts := 5, wait_loops := 5 }
          (initState false)).events = 1 := by
  refine ⟨⟨rfl, rfl, by decide⟩, ?_⟩
  exact (connect_fault_caught_and_terminal stubFault
    { ssid := "net", password := "pw", attempts := 5, wait_loops := 5 } false
    "network password" rfl rfl (by decide)).1

/-- C6: when the driver already reports connected, `connect` returns with
the currently assigned address as the single log entry, and the event
trace shows no power toggling and no driver connect request. -/
theorem connect_already_connected_shortcut (d : Driver) (cfg : Config) (p : Bool)
    (h0 : d.isconnectedAt 0 = true) :
    connect d cfg (initState p)
      = { icCount := 1, stCount := 0, power := p,
          events := [.isconnectedCall true, .ifconfigCall],
          output := [d.address] }
    ∧ countSetActive (connect d cfg (initState p)).events = 0
    ∧ countConnectCalls (connect d cfg (initState p)).events = 0 := by
  have hmain : connect d cfg (initState p)
      = { icCount := 1, stCount := 0, power := p,
          events := [.isconnectedCall true, .ifconfigCall],
          output := [d.address] } := by
    simp [connect, wlan_isconnected, wlan_ifconfig0, initState, h0, recordEvent, appendOut]
  refine ⟨hmain, ?_, ?_⟩ <;> rw [hmain] <;> rfl

theorem connect_already_connected_shortcut_witness :
    stubConnected.isconnectedAt 0 = true
    ∧ (connect stubConnected { ssid := "net", password := "pw", attempts := 5, wait_loops := 5 }
        (initState true)).output = ["10.0.0.5"] := by
  refine ⟨rfl, ?_⟩
  rw [(connect_already_connected_shortcut stubConnected
    { ssid := "net", password := "pw", attempts := 5, wait_loops := 5 } true rfl).1]
  rfl

lemma rangeDown_two : rangeDown 2 = [2, 1] := by decide

/-- C2: the inner wait loop of `connect` iterates the Python tuple
(wait_loops, 0, -1), so for every wait_loops in [1,9] and a driver that
does not report connected, each attempt performs exactly 3 connectivity
checks regardless of wait_loops; only the first of the three iterations
can add a " Wait wait_loops" log entry and a 7-unit sleep, and it does so
exactly when wait_loops >= 2; for wait_loops = 1 no wait entry and no
7-unit sleep occur at all. -/
theorem waitLoop_iterates_three_fixed_values (d : Driver) (w : Int) (s : MState)
    (hw1 : 1 ≤ w) (hw9 : w ≤ 9)
    (hd : ∀ k, d.isconnectedAt k = false) :
    waitLoop d [w, 0, -1] s =
      (false,
        { s with
          icCount := s.icCount + 3,
          events := s.events ++
            (if 1 < w then
              [.isconnectedCall false, .sleepCall WAIT_SLEEP,
                .isconnectedCall false, .isconnectedCall false]
            else
              [.isconnectedCall false, .isconnectedCall false, .isconnectedCall false]),
          output := s.output ++ (if 1 < w then [" Wait " ++ toString w] else []) }) := by
  by_cases hlt : 1 < w <;>
    simp [waitLoop, wlan_isconnected, recordEvent, appendOut, sleepE, hd, hlt]

theorem waitLoop_iterates_three_fixed_values_witness :
    (1 ≤ (5 : Int) ∧ (5 : Int) ≤ 9 ∧ ∀ k, stubNever.isconnectedAt k = false)
    ∧ waitLoop stubNever [5, 0, -1] (initState true)
      = (false,
          { icCount := 3, stCount := 0, power := true,
            events := [.isconnectedCall false, .sleepCall WAIT_SLEEP,
              .isconnectedCall false, .isconnectedCall false],
            output := [" Wait 5"] }) := by
  refine ⟨⟨by decide, by decide, fun k => rfl⟩, ?_⟩
  rw [waitLoop_iterates_three_fixed_values stubNever 5 (initState true)
    (by decide) (by decide) (fun k => rfl)]
  rfl

/-- C5: with attempts = 2, wait_loops = 1 and a driver that never reports
connected and never faults, the log of `connect` is exactly the countdown
entry "WLAN 2", a status entry, the countdown entry "WLAN 1", a status
entry, and the final "WLAN connection failed"; hence it ends with
"WLAN connection failed" and the countdown entries are exactly
["WLAN 2", "WLAN 1"] in descending order (given status messages that are
not themselves countdown shaped), and the driver still reports not
connected afterwards. -/
theorem connect_exhaustion_two_attempts (d : Driver) (ssid pw : String) (p : Bool)
    (hd : ∀ k, d.isconnectedAt k = false) (hf : d.connectFault = none)
    (hs : ∀ k, isCountdownEntry (status_message d.stats (d.statusAt k)) = false) :
    (connect d { ssid := ssid, password := pw, attempts := 2, wait_loops := 1 }
        (initState p)).output
      = ["WLAN 2", status_message d.stats (d.statusAt 0), "WLAN 1",
          status_message d.stats (d.statusAt 1), "WLAN connection failed"]
    ∧ (connect d { ssid := ssid, password := pw, attempts := 2, wait_loops := 1 }
        (initState p)).output.getLast? = some "WLAN connection failed"
    ∧ (connect d { ssid := ssid, password := pw, attempts := 2, wait_loops := 1 }
        (initState p)).output.filter isCountdownEntry = ["WLAN 2", "WLAN 1"]
    ∧ (wlan_isconnected d (connect d { ssid := ssid, password := pw, attempts := 2, wait_loops := 1 }
        (initState p))).1 = false := by
  have hout : (connect d { ssid := ssid, password := pw, attempts := 2, wait_loops := 1 }
      (initState p)).output
      = ["WLAN 2", status_message d.stats (d.statusAt 0), "WLAN 1",
          status_message d.stats (d.statusAt 1), "WLAN connection failed"] := by
    simp [connect, attemptLoop, waitLoop, wlan_isconnected, wlan_connect, wlan_status,
      sleepE, setActiveE, recordEvent, appendOut, initState, hd, hf, rangeDown_two]
    constructor <;> decide
  have hc2 : isCountdownEntry "WLAN 2" = true := by decide
  have hc1 : isCountdownEntry "WLAN 1" = true := by decide
  have hcf : isCountdownEntry "WLAN connection failed" = false := by decide
  refine ⟨hout, ?_, ?_, ?_⟩
  · rw [hout]
    rfl
  · rw [hout]
    simp [List.filter, hc2, hc1, hcf, hs 0, hs 1]
  · simp [wlan_isconnected, hd]

theorem connect_exhaustion_two_attempts_witness :
    ((∀ k, stubNever.isconnectedAt k = false) ∧ stubNever.connectFault = none
      ∧ ∀ k, isCountdownEntry (status_message stubNever.stats (stubNever.statusAt k)) = false)
    ∧ (connect stubNever { ssid := "net", password := "pw", attempts := 2, wait_loops := 1 }
        (initState false)).output
      = ["WLAN 2", "ERROR 0?", "WLAN 1", "ERROR 0?", "WLAN connection failed"] := by
  refine ⟨⟨fun k => rfl, rfl, fun k => rfl⟩, ?_⟩
  rw [(connect_exhaustion_two_attempts stubNever "net" "pw" false
    (fun k => rfl) rfl (fun k => rfl)).1]
  rfl

/-- C1: the claim prescribes exactly wait_loops connectivity polls per
attempt with a waiting entry and 7-unit pause between consecutive polls,
which matches the source comment "Wait l times or until connected" and the
wait_loops docstrings, but the loop head `for _l in (self.wait_loops, 0, -1)`
iterates a 3-element tuple, not `range(self.wait_loops, 0, -1)`.  Evaluated
at the failing input wait_loops = 5 (attempts = 1, driver never connected):
the attempt performs 3 polls (4 isconnected calls in total counting the
entry check, not 1 + 5 = 6), emits exactly one " Wait 5" entry (not 4
waiting entries) and exactly one 7-unit pause (not 4). -/
theorem connect_wait_loop_tuple_failing_input :
    (connect stubNever { ssid := "KTLT9000", password := "pw", attempts := 1, wait_loops := 5 }
        (initState false)).output
      = ["WLAN 1", " Wait 5", "ERROR 0?", "WLAN connection failed"]
    ∧ countIC (connect stubNever
        { ssid := "KTLT9000", password := "pw", attempts := 1, wait_loops := 5 }
        (initState false)).events = 4
    ∧ countWaitEntries (connect stubNever
        { ssid := "KTLT9000", password := "pw", attempts := 1, wait_loops := 5 }
        (initState false)).output = 1
    ∧ countSleep WAIT_SLEEP (connect stubNever
        { ssid := "KTLT9000", password := "pw", attempts := 1, wait_loops := 5 }
        (initState false)).events = 1 := by
  refine ⟨?_, ?_, ?_, ?_⟩ <;> decide
